import Mathlib

/-!
# Afero device profile headers

A shallow embedding of the three generated device profile headers of the
repository (MCUUpdateAll1B, MCUUpdateAll2 and afero_clock2) and of the
attribute registry the specification places on top of them.

Every constant of a header is a definition of the same name, in a namespace
named after the profile. A constant that a header defines through another
constant is defined through that constant here as well.
-/

namespace AfLib

/-- One attribute of a device profile: the three constants a header gives
per attribute, AF_NAME (id), AF_NAME_SZ (size) and AF_NAME_TYPE (type). -/
structure AttributeDescriptor where
  id : Nat
  size : Nat
  type : Nat
deriving DecidableEq

/-- A device profile: the active board variant, the board variants the header
enumerates, the wire-type tags it defines and its attribute table. -/
structure DeviceProfile where
  board : Nat
  boards : List Nat
  attributeTypes : List Nat
  attributes : List AttributeDescriptor
deriving DecidableEq

namespace MCUUpdateAll1B

def AF_BOARD_MODULO_1 : Nat := 0
def AF_BOARD_MODULO_2 : Nat := 1
def AF_BOARD_QUANTA : Nat := 2
def AF_BOARD_ABELO_2A : Nat := 3
def AF_BOARD_POTENCO : Nat := 4
def AF_BOARD_ABELO_2B : Nat := 5
def AF_BOARD_MODULO_1B : Nat := 6
def AF_BOARD : Nat := AF_BOARD_MODULO_1B
def ATTRIBUTE_TYPE_SINT8 : Nat := 2
def ATTRIBUTE_TYPE_SINT16 : Nat := 3
def ATTRIBUTE_TYPE_SINT32 : Nat := 4
def ATTRIBUTE_TYPE_SINT64 : Nat := 5
def ATTRIBUTE_TYPE_BOOLEAN : Nat := 1
def ATTRIBUTE_TYPE_UTF8S : Nat := 20
def ATTRIBUTE_TYPE_BYTES : Nat := 21
def ATTRIBUTE_TYPE_Q_15_16 : Nat := 6

-- region Service ID 1

/-- Attribute Current Temp. -/
def AF_CURRENT_TEMP : Nat := 1
def AF_CURRENT_TEMP_SZ : Nat := 2
def AF_CURRENT_TEMP_TYPE : Nat := ATTRIBUTE_TYPE_SINT16

/-- Attribute Alarm Temp. -/
def AF_ALARM_TEMP : Nat := 2
def AF_ALARM_TEMP_SZ : Nat := 2
def AF_ALARM_TEMP_TYPE : Nat := ATTRIBUTE_TYPE_SINT16

/-- Attribute Sample Rate. -/
def AF_SAMPLE_RATE : Nat := 3
def AF_SAMPLE_RATE_SZ : Nat := 1
def AF_SAMPLE_RATE_TYPE : Nat := ATTRIBUTE_TYPE_SINT8

/-- Attribute Bootloader Version. -/
def AF_BOOTLOADER_VERSION : Nat := 2001
def AF_BOOTLOADER_VERSION_SZ : Nat := 8
def AF_BOOTLOADER_VERSION_TYPE : Nat := ATTRIBUTE_TYPE_SINT64

/-- Attribute Softdevice Version. -/
def AF_SOFTDEVICE_VERSION : Nat := 2002
def AF_SOFTDEVICE_VERSION_SZ : Nat := 8
def AF_SOFTDEVICE_VERSION_TYPE : Nat := ATTRIBUTE_TYPE_SINT64

/-- Attribute Application Version. -/
def AF_APPLICATION_VERSION : Nat := 2003
def AF_APPLICATION_VERSION_SZ : Nat := 8
def AF_APPLICATION_VERSION_TYPE : Nat := ATTRIBUTE_TYPE_SINT64

/-- Attribute Profile Version. -/
def AF_PROFILE_VERSION : Nat := 2004
def AF_PROFILE_VERSION_SZ : Nat := 8
def AF_PROFILE_VERSION_TYPE : Nat := ATTRIBUTE_TYPE_SINT64

/-- Attribute Offline Schedules Enabled. -/
def AF_OFFLINE_SCHEDULES_ENABLED : Nat := 59001
def AF_OFFLINE_SCHEDULES_ENABLED_SZ : Nat := 2
def AF_OFFLINE_SCHEDULES_ENABLED_TYPE : Nat := ATTRIBUTE_TYPE_SINT16

/-- Attribute MCU UART Config. -/
def AF_SYSTEM_MCU_UART_CONFIG : Nat := 65000
def AF_SYSTEM_MCU_UART_CONFIG_SZ : Nat := 4
def AF_SYSTEM_MCU_UART_CONFIG_TYPE : Nat := ATTRIBUTE_TYPE_BYTES

/-- Attribute UTC Offset Data. -/
def AF_SYSTEM_UTC_OFFSET_DATA : Nat := 65001
def AF_SYSTEM_UTC_OFFSET_DATA_SZ : Nat := 8
def AF_SYSTEM_UTC_OFFSET_DATA_TYPE : Nat := ATTRIBUTE_TYPE_BYTES

/-- Attribute Command. -/
def AF_SYSTEM_COMMAND : Nat := 65012
def AF_SYSTEM_COMMAND_SZ : Nat := 64
def AF_SYSTEM_COMMAND_TYPE : Nat := ATTRIBUTE_TYPE_BYTES

/-- Attribute ASR State. -/
def AF_SYSTEM_ASR_STATE : Nat := 65013
def AF_SYSTEM_ASR_STATE_SZ : Nat := 1
def AF_SYSTEM_ASR_STATE_TYPE : Nat := ATTRIBUTE_TYPE_SINT8

/-- Attribute Low Power Warn. -/
def AF_SYSTEM_LOW_POWER_WARN : Nat := 65014
def AF_SYSTEM_LOW_POWER_WARN_SZ : Nat := 1
def AF_SYSTEM_LOW_POWER_WARN_TYPE : Nat := ATTRIBUTE_TYPE_SINT8

/-- Attribute Linked Timestamp. -/
def AF_SYSTEM_LINKED_TIMESTAMP : Nat := 65015
def AF_SYSTEM_LINKED_TIMESTAMP_SZ : Nat := 4
def AF_SYSTEM_LINKED_TIMESTAMP_TYPE : Nat := ATTRIBUTE_TYPE_SINT32

/-- Attribute Reboot Reason. -/
def AF_SYSTEM_REBOOT_REASON : Nat := 65019
def AF_SYSTEM_REBOOT_REASON_SZ : Nat := 100
def AF_SYSTEM_REBOOT_REASON_TYPE : Nat := ATTRIBUTE_TYPE_UTF8S

/-- Attribute Device Capability. -/
def AF_SYSTEM_DEVICE_CAPABILITY : Nat := 65066
def AF_SYSTEM_DEVICE_CAPABILITY_SZ : Nat := 8
def AF_SYSTEM_DEVICE_CAPABILITY_TYPE : Nat := ATTRIBUTE_TYPE_BYTES

/-- The board variants this header enumerates, in the order of their definitions. -/
def boards : List Nat :=
  [AF_BOARD_MODULO_1, AF_BOARD_MODULO_2, AF_BOARD_QUANTA, AF_BOARD_ABELO_2A, AF_BOARD_POTENCO, AF_BOARD_ABELO_2B, AF_BOARD_MODULO_1B]

/-- The wire-type tags this header defines, in the order of their definitions. -/
def attributeTypes : List Nat :=
  [ATTRIBUTE_TYPE_SINT8,
   ATTRIBUTE_TYPE_SINT16,
   ATTRIBUTE_TYPE_SINT32,
   ATTRIBUTE_TYPE_SINT64,
   ATTRIBUTE_TYPE_BOOLEAN,
   ATTRIBUTE_TYPE_UTF8S,
   ATTRIBUTE_TYPE_BYTES,
   ATTRIBUTE_TYPE_Q_15_16]

/-- The attribute blocks of this header as a table, in the order of their definitions:
each entry is the triple AF_NAME, AF_NAME_SZ, AF_NAME_TYPE. -/
def attributes : List AttributeDescriptor :=
  [⟨AF_CURRENT_TEMP, AF_CURRENT_TEMP_SZ, AF_CURRENT_TEMP_TYPE⟩,
   ⟨AF_ALARM_TEMP, AF_ALARM_TEMP_SZ, AF_ALARM_TEMP_TYPE⟩,
   ⟨AF_SAMPLE_RATE, AF_SAMPLE_RATE_SZ, AF_SAMPLE_RATE_TYPE⟩,
   ⟨AF_BOOTLOADER_VERSION, AF_BOOTLOADER_VERSION_SZ, AF_BOOTLOADER_VERSION_TYPE⟩,
   ⟨AF_SOFTDEVICE_VERSION, AF_SOFTDEVICE_VERSION_SZ, AF_SOFTDEVICE_VERSION_TYPE⟩,
   ⟨AF_APPLICATION_VERSION, AF_APPLICATION_VERSION_SZ, AF_APPLICATION_VERSION_TYPE⟩,
   ⟨AF_PROFILE_VERSION, AF_PROFILE_VERSION_SZ, AF_PROFILE_VERSION_TYPE⟩,
   ⟨AF_OFFLINE_SCHEDULES_ENABLED, AF_OFFLINE_SCHEDULES_ENABLED_SZ, AF_OFFLINE_SCHEDULES_ENABLED_TYPE⟩,
   ⟨AF_SYSTEM_MCU_UART_CONFIG, AF_SYSTEM_MCU_UART_CONFIG_SZ, AF_SYSTEM_MCU_UART_CONFIG_TYPE⟩,
   ⟨AF_SYSTEM_UTC_OFFSET_DATA, AF_SYSTEM_UTC_OFFSET_DATA_SZ, AF_SYSTEM_UTC_OFFSET_DATA_TYPE⟩,
   ⟨AF_SYSTEM_COMMAND, AF_SYSTEM_COMMAND_SZ, AF_SYSTEM_COMMAND_TYPE⟩,
   ⟨AF_SYSTEM_ASR_STATE, AF_SYSTEM_ASR_STATE_SZ, AF_SYSTEM_ASR_STATE_TYPE⟩,
   ⟨AF_SYSTEM_LOW_POWER_WARN, AF_SYSTEM_LOW_POWER_WARN_SZ, AF_SYSTEM_LOW_POWER_WARN_TYPE⟩,
   ⟨AF_SYSTEM_LINKED_TIMESTAMP, AF_SYSTEM_LINKED_TIMESTAMP_SZ, AF_SYSTEM_LINKED_TIMESTAMP_TYPE⟩,
   ⟨AF_SYSTEM_REBOOT_REASON, AF_SYSTEM_REBOOT_REASON_SZ, AF_SYSTEM_REBOOT_REASON_TYPE⟩,
   ⟨AF_SYSTEM_DEVICE_CAPABILITY, AF_SYSTEM_DEVICE_CAPABILITY_SZ, AF_SYSTEM_DEVICE_CAPABILITY_TYPE⟩]

/-- The profile of this header. -/
def profile : DeviceProfile :=
  ⟨AF_BOARD, boards, attributeTypes, attributes⟩

end MCUUpdateAll1B

namespace MCUUpdateAll2

def AF_BOARD_MODULO_1 : Nat := 0
def AF_BOARD_MODULO_2 : Nat := 1
def AF_BOARD_QUANTA : Nat := 2
def AF_BOARD_ABELO_2A : Nat := 3
def AF_BOARD_POTENCO : Nat := 4
def AF_BOARD : Nat := AF_BOARD_MODULO_2
def ATTRIBUTE_TYPE_SINT8 : Nat := 2
def ATTRIBUTE_TYPE_SINT16 : Nat := 3
def ATTRIBUTE_TYPE_SINT32 : Nat := 4
def ATTRIBUTE_TYPE_SINT64 : Nat := 5
def ATTRIBUTE_TYPE_BOOLEAN : Nat := 1
def ATTRIBUTE_TYPE_UTF8S : Nat := 20
def ATTRIBUTE_TYPE_BYTES : Nat := 21
def ATTRIBUTE_TYPE_Q_15_16 : Nat := 6

-- region Service ID 1

/-- Attribute Current Temp. -/
def AF_CURRENT_TEMP : Nat := 1
def AF_CURRENT_TEMP_SZ : Nat := 2
def AF_CURRENT_TEMP_TYPE : Nat := ATTRIBUTE_TYPE_SINT16

/-- Attribute Alarm Temp. -/
def AF_ALARM_TEMP : Nat := 2
def AF_ALARM_TEMP_SZ : Nat := 2
def AF_ALARM_TEMP_TYPE : Nat := ATTRIBUTE_TYPE_SINT16

/-- Attribute Sample Rate. -/
def AF_SAMPLE_RATE : Nat := 3
def AF_SAMPLE_RATE_SZ : Nat := 1
def AF_SAMPLE_RATE_TYPE : Nat := ATTRIBUTE_TYPE_SINT8

/-- Attribute Bootloader Version. -/
def AF_BOOTLOADER_VERSION : Nat := 2001
def AF_BOOTLOADER_VERSION_SZ : Nat := 8
def AF_BOOTLOADER_VERSION_TYPE : Nat := ATTRIBUTE_TYPE_SINT64

/-- Attribute Application Version. -/
def AF_APPLICATION_VERSION : Nat := 2003
def AF_APPLICATION_VERSION_SZ : Nat := 8
def AF_APPLICATION_VERSION_TYPE : Nat := ATTRIBUTE_TYPE_SINT64

/-- Attribute Profile Version. -/
def AF_PROFILE_VERSION : Nat := 2004
def AF_PROFILE_VERSION_SZ : Nat := 8
def AF_PROFILE_VERSION_TYPE : Nat := ATTRIBUTE_TYPE_SINT64

/-- Attribute WiFi Version. -/
def AF_WIFI_VERSION : Nat := 2006
def AF_WIFI_VERSION_SZ : Nat := 8
def AF_WIFI_VERSION_TYPE : Nat := ATTRIBUTE_TYPE_SINT64

/-- Attribute Offline Schedules Enabled. -/
def AF_OFFLINE_SCHEDULES_ENABLED : Nat := 59001
def AF_OFFLINE_SCHEDULES_ENABLED_SZ : Nat := 2
def AF_OFFLINE_SCHEDULES_ENABLED_TYPE : Nat := ATTRIBUTE_TYPE_SINT16

/-- Attribute UTC Offset Data. -/
def AF_SYSTEM_UTC_OFFSET_DATA : Nat := 65001
def AF_SYSTEM_UTC_OFFSET_DATA_SZ : Nat := 8
def AF_SYSTEM_UTC_OFFSET_DATA_TYPE : Nat := ATTRIBUTE_TYPE_BYTES

/-- Attribute Connected SSID. -/
def AF_SYSTEM_CONNECTED_SSID : Nat := 65004
def AF_SYSTEM_CONNECTED_SSID_SZ : Nat := 33
def AF_SYSTEM_CONNECTED_SSID_TYPE : Nat := ATTRIBUTE_TYPE_UTF8S

/-- Attribute WiFi Bars. -/
def AF_SYSTEM_WIFI_BARS : Nat := 65005
def AF_SYSTEM_WIFI_BARS_SZ : Nat := 1
def AF_SYSTEM_WIFI_BARS_TYPE : Nat := ATTRIBUTE_TYPE_SINT8

/-- Attribute WiFi Steady State. -/
def AF_SYSTEM_WIFI_STEADY_STATE : Nat := 65006
def AF_SYSTEM_WIFI_STEADY_STATE_SZ : Nat := 1
def AF_SYSTEM_WIFI_STEADY_STATE_TYPE : Nat := ATTRIBUTE_TYPE_SINT8

/-- Attribute Command. -/
def AF_SYSTEM_COMMAND : Nat := 65012
def AF_SYSTEM_COMMAND_SZ : Nat := 4
def AF_SYSTEM_COMMAND_TYPE : Nat := ATTRIBUTE_TYPE_SINT32

/-- Attribute ASR State. -/
def AF_SYSTEM_ASR_STATE : Nat := 65013
def AF_SYSTEM_ASR_STATE_SZ : Nat := 1
def AF_SYSTEM_ASR_STATE_TYPE : Nat := ATTRIBUTE_TYPE_SINT8

/-- Attribute Low Power Warn. -/
def AF_SYSTEM_LOW_POWER_WARN : Nat := 65014
def AF_SYSTEM_LOW_POWER_WARN_SZ : Nat := 1
def AF_SYSTEM_LOW_POWER_WARN_TYPE : Nat := ATTRIBUTE_TYPE_SINT8

/-- Attribute Linked Timestamp. -/
def AF_SYSTEM_LINKED_TIMESTAMP : Nat := 65015
def AF_SYSTEM_LINKED_TIMESTAMP_SZ : Nat := 4
def AF_SYSTEM_LINKED_TIMESTAMP_TYPE : Nat := ATTRIBUTE_TYPE_SINT32

/-- Attribute Reboot Reason. -/
def AF_SYSTEM_REBOOT_REASON : Nat := 65019
def AF_SYSTEM_REBOOT_REASON_SZ : Nat := 100
def AF_SYSTEM_REBOOT_REASON_TYPE : Nat := ATTRIBUTE_TYPE_UTF8S

/-- Attribute MCU Interface. -/
def AF_SYSTEM_MCU_INTERFACE : Nat := 65021
def AF_SYSTEM_MCU_INTERFACE_SZ : Nat := 1
def AF_SYSTEM_MCU_INTERFACE_TYPE : Nat := ATTRIBUTE_TYPE_SINT8

/-- The board variants this header enumerates, in the order of their definitions. -/
def boards : List Nat :=
  [AF_BOARD_MODULO_1, AF_BOARD_MODULO_2, AF_BOARD_QUANTA, AF_BOARD_ABELO_2A, AF_BOARD_POTENCO]

/-- The wire-type tags this header defines, in the order of their definitions. -/
def attributeTypes : List Nat :=
  [ATTRIBUTE_TYPE_SINT8,
   ATTRIBUTE_TYPE_SINT16,
   ATTRIBUTE_TYPE_SINT32,
   ATTRIBUTE_TYPE_SINT64,
   ATTRIBUTE_TYPE_BOOLEAN,
   ATTRIBUTE_TYPE_UTF8S,
   ATTRIBUTE_TYPE_BYTES,
   ATTRIBUTE_TYPE_Q_15_16]

/-- The attribute blocks of this header as a table, in the order of their definitions:
each entry is the triple AF_NAME, AF_NAME_SZ, AF_NAME_TYPE. -/
def attributes : List AttributeDescriptor :=
  [⟨AF_CURRENT_TEMP, AF_CURRENT_TEMP_SZ, AF_CURRENT_TEMP_TYPE⟩,
   ⟨AF_ALARM_TEMP, AF_ALARM_TEMP_SZ, AF_ALARM_TEMP_TYPE⟩,
   ⟨AF_SAMPLE_RATE, AF_SAMPLE_RATE_SZ, AF_SAMPLE_RATE_TYPE⟩,
   ⟨AF_BOOTLOADER_VERSION, AF_BOOTLOADER_VERSION_SZ, AF_BOOTLOADER_VERSION_TYPE⟩,
   ⟨AF_APPLICATION_VERSION, AF_APPLICATION_VERSION_SZ, AF_APPLICATION_VERSION_TYPE⟩,
   ⟨AF_PROFILE_VERSION, AF_PROFILE_VERSION_SZ, AF_PROFILE_VERSION_TYPE⟩,
   ⟨AF_WIFI_VERSION, AF_WIFI_VERSION_SZ, AF_WIFI_VERSION_TYPE⟩,
   ⟨AF_OFFLINE_SCHEDULES_ENABLED, AF_OFFLINE_SCHEDULES_ENABLED_SZ, AF_OFFLINE_SCHEDULES_ENABLED_TYPE⟩,
   ⟨AF_SYSTEM_UTC_OFFSET_DATA, AF_SYSTEM_UTC_OFFSET_DATA_SZ, AF_SYSTEM_UTC_OFFSET_DATA_TYPE⟩,
   ⟨AF_SYSTEM_CONNECTED_SSID, AF_SYSTEM_CONNECTED_SSID_SZ, AF_SYSTEM_CONNECTED_SSID_TYPE⟩,
   ⟨AF_SYSTEM_WIFI_BARS, AF_SYSTEM_WIFI_BARS_SZ, AF_SYSTEM_WIFI_BARS_TYPE⟩,
   ⟨AF_SYSTEM_WIFI_STEADY_STATE, AF_SYSTEM_WIFI_STEADY_STATE_SZ, AF_SYSTEM_WIFI_STEADY_STATE_TYPE⟩,
   ⟨AF_SYSTEM_COMMAND, AF_SYSTEM_COMMAND_SZ, AF_SYSTEM_COMMAND_TYPE⟩,
   ⟨AF_SYSTEM_ASR_STATE, AF_SYSTEM_ASR_STATE_SZ, AF_SYSTEM_ASR_STATE_TYPE⟩,
   ⟨AF_SYSTEM_LOW_POWER_WARN, AF_SYSTEM_LOW_POWER_WARN_SZ, AF_SYSTEM_LOW_POWER_WARN_TYPE⟩,
   ⟨AF_SYSTEM_LINKED_TIMESTAMP, AF_SYSTEM_LINKED_TIMESTAMP_SZ, AF_SYSTEM_LINKED_TIMESTAMP_TYPE⟩,
   ⟨AF_SYSTEM_REBOOT_REASON, AF_SYSTEM_REBOOT_REASON_SZ, AF_SYSTEM_REBOOT_REASON_TYPE⟩,
   ⟨AF_SYSTEM_MCU_INTERFACE, AF_SYSTEM_MCU_INTERFACE_SZ, AF_SYSTEM_MCU_INTERFACE_TYPE⟩]

/-- The profile of this header. -/
def profile : DeviceProfile :=
  ⟨AF_BOARD, boards, attributeTypes, attributes⟩

end MCUUpdateAll2

namespace afero_clock2

def AF_BOARD_MODULO_1 : Nat := 0
def AF_BOARD_MODULO_2 : Nat := 1
def AF_BOARD_QUANTA : Nat := 2
def AF_BOARD_ABELO_2A : Nat := 3
def AF_BOARD_POTENCO : Nat := 4
def AF_BOARD_ABELO_2B : Nat := 5
def AF_BOARD_MODULO_1B : Nat := 6
def AF_BOARD : Nat := AF_BOARD_MODULO_2
def ATTRIBUTE_TYPE_SINT8 : Nat := 2
def ATTRIBUTE_TYPE_SINT16 : Nat := 3
def ATTRIBUTE_TYPE_SINT32 : Nat := 4
def ATTRIBUTE_TYPE_SINT64 : Nat := 5
def ATTRIBUTE_TYPE_BOOLEAN : Nat := 1
def ATTRIBUTE_TYPE_UTF8S : Nat := 20
def ATTRIBUTE_TYPE_BYTES : Nat := 21
def ATTRIBUTE_TYPE_Q_15_16 : Nat := 6

-- region Service ID 0

/-- Attribute Device ID. -/
def AF_DEVICE_ID : Nat := 1202
def AF_DEVICE_ID_SZ : Nat := 8
def AF_DEVICE_ID_TYPE : Nat := ATTRIBUTE_TYPE_BYTES

/-- Attribute Association ID. -/
def AF_ASSOCIATION_ID : Nat := 1203
def AF_ASSOCIATION_ID_SZ : Nat := 12
def AF_ASSOCIATION_ID_TYPE : Nat := ATTRIBUTE_TYPE_BYTES

/-- Attribute Company Code. -/
def AF_COMPANY_CODE : Nat := 1204
def AF_COMPANY_CODE_SZ : Nat := 1
def AF_COMPANY_CODE_TYPE : Nat := ATTRIBUTE_TYPE_SINT8

/-- Attribute Online Status. -/
def AF_ONLINE_STATUS : Nat := 1205
def AF_ONLINE_STATUS_SZ : Nat := 3
def AF_ONLINE_STATUS_TYPE : Nat := ATTRIBUTE_TYPE_BYTES

-- region Service ID 1

/-- Attribute LED. -/
def AF_LED : Nat := 1024
def AF_LED_SZ : Nat := 2
def AF_LED_TYPE : Nat := ATTRIBUTE_TYPE_SINT16

/-- Attribute GPIO 0 Configuration. -/
def AF_GPIO_0_CONFIGURATION : Nat := 1025
def AF_GPIO_0_CONFIGURATION_SZ : Nat := 8
def AF_GPIO_0_CONFIGURATION_TYPE : Nat := ATTRIBUTE_TYPE_SINT64

/-- Attribute Button. -/
def AF_BUTTON : Nat := 1030
def AF_BUTTON_SZ : Nat := 2
def AF_BUTTON_TYPE : Nat := ATTRIBUTE_TYPE_SINT16

/-- Attribute GPIO 3 Configuration. -/
def AF_GPIO_3_CONFIGURATION : Nat := 1031
def AF_GPIO_3_CONFIGURATION_SZ : Nat := 8
def AF_GPIO_3_CONFIGURATION_TYPE : Nat := ATTRIBUTE_TYPE_SINT64

/-- Attribute UTC Time. -/
def AF_UTC_TIME : Nat := 1201
def AF_UTC_TIME_SZ : Nat := 4
def AF_UTC_TIME_TYPE : Nat := ATTRIBUTE_TYPE_SINT32

/-- Attribute Bootloader Version. -/
def AF_BOOTLOADER_VERSION : Nat := 2001
def AF_BOOTLOADER_VERSION_SZ : Nat := 8
def AF_BOOTLOADER_VERSION_TYPE : Nat := ATTRIBUTE_TYPE_SINT64

/-- Attribute Application Version. -/
def AF_APPLICATION_VERSION : Nat := 2003
def AF_APPLICATION_VERSION_SZ : Nat := 8
def AF_APPLICATION_VERSION_TYPE : Nat := ATTRIBUTE_TYPE_SINT64

/-- Attribute Profile Version. -/
def AF_PROFILE_VERSION : Nat := 2004
def AF_PROFILE_VERSION_SZ : Nat := 8
def AF_PROFILE_VERSION_TYPE : Nat := ATTRIBUTE_TYPE_SINT64

/-- Attribute WiFi Version. -/
def AF_WIFI_VERSION : Nat := 2006
def AF_WIFI_VERSION_SZ : Nat := 8
def AF_WIFI_VERSION_TYPE : Nat := ATTRIBUTE_TYPE_SINT64

/-- Attribute Offline Schedules Enabled. -/
def AF_OFFLINE_SCHEDULES_ENABLED : Nat := 59001
def AF_OFFLINE_SCHEDULES_ENABLED_SZ : Nat := 2
def AF_OFFLINE_SCHEDULES_ENABLED_TYPE : Nat := ATTRIBUTE_TYPE_SINT16

/-- Attribute MCU UART Config. -/
def AF_SYSTEM_MCU_UART_CONFIG : Nat := 65000
def AF_SYSTEM_MCU_UART_CONFIG_SZ : Nat := 4
def AF_SYSTEM_MCU_UART_CONFIG_TYPE : Nat := ATTRIBUTE_TYPE_BYTES

/-- Attribute UTC Offset Data. -/
def AF_SYSTEM_UTC_OFFSET_DATA : Nat := 65001
def AF_SYSTEM_UTC_OFFSET_DATA_SZ : Nat := 8
def AF_SYSTEM_UTC_OFFSET_DATA_TYPE : Nat := ATTRIBUTE_TYPE_BYTES

/-- Attribute Connected SSID. -/
def AF_SYSTEM_CONNECTED_SSID : Nat := 65004
def AF_SYSTEM_CONNECTED_SSID_SZ : Nat := 33
def AF_SYSTEM_CONNECTED_SSID_TYPE : Nat := ATTRIBUTE_TYPE_UTF8S

/-- Attribute WiFi Bars. -/
def AF_SYSTEM_WIFI_BARS : Nat := 65005
def AF_SYSTEM_WIFI_BARS_SZ : Nat := 1
def AF_SYSTEM_WIFI_BARS_TYPE : Nat := ATTRIBUTE_TYPE_SINT8

/-- Attribute WiFi Steady State. -/
def AF_SYSTEM_WIFI_STEADY_STATE : Nat := 65006
def AF_SYSTEM_WIFI_STEADY_STATE_SZ : Nat := 1
def AF_SYSTEM_WIFI_STEADY_STATE_TYPE : Nat := ATTRIBUTE_TYPE_SINT8

/-- Attribute Command. -/
def AF_SYSTEM_COMMAND : Nat := 65012
def AF_SYSTEM_COMMAND_SZ : Nat := 64
def AF_SYSTEM_COMMAND_TYPE : Nat := ATTRIBUTE_TYPE_BYTES

/-- Attribute ASR State. -/
def AF_SYSTEM_ASR_STATE : Nat := 65013
def AF_SYSTEM_ASR_STATE_SZ : Nat := 1
def AF_SYSTEM_ASR_STATE_TYPE : Nat := ATTRIBUTE_TYPE_SINT8

/-- Attribute Low Power Warn. -/
def AF_SYSTEM_LOW_POWER_WARN : Nat := 65014
def AF_SYSTEM_LOW_POWER_WARN_SZ : Nat := 1
def AF_SYSTEM_LOW_POWER_WARN_TYPE : Nat := ATTRIBUTE_TYPE_SINT8

/-- Attribute Linked Timestamp. -/
def AF_SYSTEM_LINKED_TIMESTAMP : Nat := 65015
def AF_SYSTEM_LINKED_TIMESTAMP_SZ : Nat := 4
def AF_SYSTEM_LINKED_TIMESTAMP_TYPE : Nat := ATTRIBUTE_TYPE_SINT32

/-- Attribute Reboot Reason. -/
def AF_SYSTEM_REBOOT_REASON : Nat := 65019
def AF_SYSTEM_REBOOT_REASON_SZ : Nat := 100
def AF_SYSTEM_REBOOT_REASON_TYPE : Nat := ATTRIBUTE_TYPE_UTF8S

/-- Attribute Device Capability. -/
def AF_SYSTEM_DEVICE_CAPABILITY : Nat := 65066
def AF_SYSTEM_DEVICE_CAPABILITY_SZ : Nat := 8
def AF_SYSTEM_DEVICE_CAPABILITY_TYPE : Nat := ATTRIBUTE_TYPE_BYTES

/-- The board variants this header enumerates, in the order of their definitions. -/
def boards : List Nat :=
  [AF_BOARD_MODULO_1, AF_BOARD_MODULO_2, AF_BOARD_QUANTA, AF_BOARD_ABELO_2A, AF_BOARD_POTENCO, AF_BOARD_ABELO_2B, AF_BOARD_MODULO_1B]

/-- The wire-type tags this header defines, in the order of their definitions. -/
def attributeTypes : List Nat :=
  [ATTRIBUTE_TYPE_SINT8,
   ATTRIBUTE_TYPE_SINT16,
   ATTRIBUTE_TYPE_SINT32,
   ATTRIBUTE_TYPE_SINT64,
   ATTRIBUTE_TYPE_BOOLEAN,
   ATTRIBUTE_TYPE_UTF8S,
   ATTRIBUTE_TYPE_BYTES,
   ATTRIBUTE_TYPE_Q_15_16]

/-- The attribute blocks of this header as a table, in the order of their definitions:
each entry is the triple AF_NAME, AF_NAME_SZ, AF_NAME_TYPE. -/
def attributes : List AttributeDescriptor :=
  [⟨AF_DEVICE_ID, AF_DEVICE_ID_SZ, AF_DEVICE_ID_TYPE⟩,
   ⟨AF_ASSOCIATION_ID, AF_ASSOCIATION_ID_SZ, AF_ASSOCIATION_ID_TYPE⟩,
   ⟨AF_COMPANY_CODE, AF_COMPANY_CODE_SZ, AF_COMPANY_CODE_TYPE⟩,
   ⟨AF_ONLINE_STATUS, AF_ONLINE_STATUS_SZ, AF_ONLINE_STATUS_TYPE⟩,
   ⟨AF_LED, AF_LED_SZ, AF_LED_TYPE⟩,
   ⟨AF_GPIO_0_CONFIGURATION, AF_GPIO_0_CONFIGURATION_SZ, AF_GPIO_0_CONFIGURATION_TYPE⟩,
   ⟨AF_BUTTON, AF_BUTTON_SZ, AF_BUTTON_TYPE⟩,
   ⟨AF_GPIO_3_CONFIGURATION, AF_GPIO_3_CONFIGURATION_SZ, AF_GPIO_3_CONFIGURATION_TYPE⟩,
   ⟨AF_UTC_TIME, AF_UTC_TIME_SZ, AF_UTC_TIME_TYPE⟩,
   ⟨AF_BOOTLOADER_VERSION, AF_BOOTLOADER_VERSION_SZ, AF_BOOTLOADER_VERSION_TYPE⟩,
   ⟨AF_APPLICATION_VERSION, AF_APPLICATION_VERSION_SZ, AF_APPLICATION_VERSION_TYPE⟩,
   ⟨AF_PROFILE_VERSION, AF_PROFILE_VERSION_SZ, AF_PROFILE_VERSION_TYPE⟩,
   ⟨AF_WIFI_VERSION, AF_WIFI_VERSION_SZ, AF_WIFI_VERSION_TYPE⟩,
   ⟨AF_OFFLINE_SCHEDULES_ENABLED, AF_OFFLINE_SCHEDULES_ENABLED_SZ, AF_OFFLINE_SCHEDULES_ENABLED_TYPE⟩,
   ⟨AF_SYSTEM_MCU_UART_CONFIG, AF_SYSTEM_MCU_UART_CONFIG_SZ, AF_SYSTEM_MCU_UART_CONFIG_TYPE⟩,
   ⟨AF_SYSTEM_UTC_OFFSET_DATA, AF_SYSTEM_UTC_OFFSET_DATA_SZ, AF_SYSTEM_UTC_OFFSET_DATA_TYPE⟩,
   ⟨AF_SYSTEM_CONNECTED_SSID, AF_SYSTEM_CONNECTED_SSID_SZ, AF_SYSTEM_CONNECTED_SSID_TYPE⟩,
   ⟨AF_SYSTEM_WIFI_BARS, AF_SYSTEM_WIFI_BARS_SZ, AF_SYSTEM_WIFI_BARS_TYPE⟩,
   ⟨AF_SYSTEM_WIFI_STEADY_STATE, AF_SYSTEM_WIFI_STEADY_STATE_SZ, AF_SYSTEM_WIFI_STEADY_STATE_TYPE⟩,
   ⟨AF_SYSTEM_COMMAND, AF_SYSTEM_COMMAND_SZ, AF_SYSTEM_COMMAND_TYPE⟩,
   ⟨AF_SYSTEM_ASR_STATE, AF_SYSTEM_ASR_STATE_SZ, AF_SYSTEM_ASR_STATE_TYPE⟩,
   ⟨AF_SYSTEM_LOW_POWER_WARN, AF_SYSTEM_LOW_POWER_WARN_SZ, AF_SYSTEM_LOW_POWER_WARN_TYPE⟩,
   ⟨AF_SYSTEM_LINKED_TIMESTAMP, AF_SYSTEM_LINKED_TIMESTAMP_SZ, AF_SYSTEM_LINKED_TIMESTAMP_TYPE⟩,
   ⟨AF_SYSTEM_REBOOT_REASON, AF_SYSTEM_REBOOT_REASON_SZ, AF_SYSTEM_REBOOT_REASON_TYPE⟩,
   ⟨AF_SYSTEM_DEVICE_CAPABILITY, AF_SYSTEM_DEVICE_CAPABILITY_SZ, AF_SYSTEM_DEVICE_CAPABILITY_TYPE⟩]

/-- The profile of this header. -/
def profile : DeviceProfile :=
  ⟨AF_BOARD, boards, attributeTypes, attributes⟩

end afero_clock2

/-- The three profiles of the repository. -/
def profiles : List DeviceProfile :=
  [MCUUpdateAll1B.profile, MCUUpdateAll2.profile, afero_clock2.profile]

/-- The error taxonomy of the attribute registry. -/
inductive RegistryError where
  | UnknownAttribute
  | LengthMismatch
  | InvalidEncoding
  | ValueOutOfRange
  | SizeExceeded
deriving DecidableEq

/-- Modelled from the spec: the registry operation lookup(profile, id), which
the headers do not contain. It returns the descriptor whose id is the given
one, or signals UnknownAttribute when the id is absent from the profile. -/
def lookup (p : DeviceProfile) (id : Nat) : Except RegistryError AttributeDescriptor :=
  match p.attributes.find? (fun d => d.id == id) with
  | some d => .ok d
  | none => .error .UnknownAttribute

/-- The entries of a profile table that carry a given id. -/
def matching (p : DeviceProfile) (id : Nat) : List AttributeDescriptor :=
  p.attributes.filter (fun d => d.id == id)

/-! ## Properties of lookup -/

theorem lookup_ok_mem {p : DeviceProfile} {id : Nat} {d : AttributeDescriptor}
    (h : lookup p id = .ok d) : d ∈ p.attributes ∧ d.id = id := by
  unfold lookup at h
  split at h
  · rename_i e he
    injection h with h
    subst h
    refine ⟨List.mem_of_find?_eq_some he, ?_⟩
    have := List.find?_some he
    simpa using this
  · cases h

theorem lookup_error_of_absent {p : DeviceProfile} {id : Nat}
    (h : ∀ d ∈ p.attributes, d.id ≠ id) : lookup p id = .error .UnknownAttribute := by
  unfold lookup
  have hnone : p.attributes.find? (fun d => d.id == id) = none := by
    rw [List.find?_eq_none]
    intro d hd
    simpa using h d hd
  rw [hnone]

theorem matching_length_le_one_of_nodup (l : List AttributeDescriptor)
    (h : (l.map (fun d => d.id)).Nodup) (id : Nat) :
    (l.filter (fun d => d.id == id)).length ≤ 1 := by
  induction l with
  | nil => simp
  | cons a l ih =>
    rw [List.map_cons, List.nodup_cons] at h
    by_cases ha : a.id = id
    · have hnil : l.filter (fun d => d.id == id) = [] := by
        rw [List.filter_eq_nil_iff]
        intro d hd hid
        apply h.1
        have : d.id = a.id := by rw [ha]; simpa using hid
        rw [← this]
        exact List.mem_map_of_mem (fun d => d.id) hd
      simp [List.filter_cons, ha, hnil]
    · have := ih h.2
      simpa [List.filter_cons, ha] using this

theorem find_self_of_nodup (l : List AttributeDescriptor)
    (h : (l.map (fun d => d.id)).Nodup) (d : AttributeDescriptor) (hd : d ∈ l) :
    l.find? (fun e => e.id == d.id) = some d := by
  induction l with
  | nil => cases hd
  | cons a l ih =>
    rw [List.map_cons, List.nodup_cons] at h
    rcases List.mem_cons.mp hd with rfl | hl
    · simp [List.find?_cons]
    · have hne : a.id ≠ d.id := by
        intro heq
        apply h.1
        rw [heq]
        exact List.mem_map_of_mem (fun d => d.id) hl
      simp [List.find?_cons, hne, ih h.2 hl]

theorem profile_ids_nodup (p : DeviceProfile) (hp : p ∈ profiles) :
    (p.attributes.map (fun d => d.id)).Nodup := by
  simp only [profiles, List.mem_cons, List.mem_singleton, List.not_mem_nil, or_false] at hp
  rcases hp with rfl | rfl | rfl <;> decide

theorem system_entries_agree :
    ∀ p ∈ profiles, ∀ q ∈ profiles, ∀ d ∈ p.attributes, ∀ e ∈ q.attributes,
      d.id = e.id → 65000 < d.id →
      (d.id ≠ 65012 ∨ (p = MCUUpdateAll2.profile ↔ q = MCUUpdateAll2.profile)) →
      d.size = e.size ∧ d.type = e.type := by
  decide

/-! ## The claims -/

/-- C1: in each of the three profiles no two entries of the attribute table
carry the same id, so for every id at most one entry of the table matches it,
and lookup under the id of an entry returns that very entry. -/
theorem attribute_ids_unique (p : DeviceProfile) (hp : p ∈ profiles) (id : Nat) :
    (p.attributes.map (fun d => d.id)).Nodup ∧
    (matching p id).length ≤ 1 ∧
    ∀ d ∈ p.attributes, lookup p d.id = .ok d := by
  have hnd := profile_ids_nodup p hp
  refine ⟨hnd, matching_length_le_one_of_nodup p.attributes hnd id, ?_⟩
  intro d hd
  unfold lookup
  rw [find_self_of_nodup p.attributes hnd d hd]

theorem attribute_ids_unique_witness :
    MCUUpdateAll2.profile ∈ profiles ∧
    (MCUUpdateAll2.profile.attributes.map (fun d => d.id)).Nodup ∧
    (matching MCUUpdateAll2.profile 65012).length ≤ 1 ∧
    ∀ d ∈ MCUUpdateAll2.profile.attributes, lookup MCUUpdateAll2.profile d.id = .ok d :=
  ⟨by decide, attribute_ids_unique MCUUpdateAll2.profile (by decide) 65012⟩

/-- C2: in each of the three profiles, an attribute whose type is a fixed-width
numeric type has the size of that type: SINT8 size 1, SINT16 size 2, SINT32
size 4, SINT64 size 8, BOOLEAN size 1 and Q_15_16 size 4. -/
theorem fixed_width_size_matches_type :
    (∀ d ∈ MCUUpdateAll1B.attributes,
      (d.type = MCUUpdateAll1B.ATTRIBUTE_TYPE_SINT8 → d.size = 1) ∧
      (d.type = MCUUpdateAll1B.ATTRIBUTE_TYPE_SINT16 → d.size = 2) ∧
      (d.type = MCUUpdateAll1B.ATTRIBUTE_TYPE_SINT32 → d.size = 4) ∧
      (d.type = MCUUpdateAll1B.ATTRIBUTE_TYPE_SINT64 → d.size = 8) ∧
      (d.type = MCUUpdateAll1B.ATTRIBUTE_TYPE_BOOLEAN → d.size = 1) ∧
      (d.type = MCUUpdateAll1B.ATTRIBUTE_TYPE_Q_15_16 → d.size = 4)) ∧
    (∀ d ∈ MCUUpdateAll2.attributes,
      (d.type = MCUUpdateAll2.ATTRIBUTE_TYPE_SINT8 → d.size = 1) ∧
      (d.type = MCUUpdateAll2.ATTRIBUTE_TYPE_SINT16 → d.size = 2) ∧
      (d.type = MCUUpdateAll2.ATTRIBUTE_TYPE_SINT32 → d.size = 4) ∧
      (d.type = MCUUpdateAll2.ATTRIBUTE_TYPE_SINT64 → d.size = 8) ∧
      (d.type = MCUUpdateAll2.ATTRIBUTE_TYPE_BOOLEAN → d.size = 1) ∧
      (d.type = MCUUpdateAll2.ATTRIBUTE_TYPE_Q_15_16 → d.size = 4)) ∧
    (∀ d ∈ afero_clock2.attributes,
      (d.type = afero_clock2.ATTRIBUTE_TYPE_SINT8 → d.size = 1) ∧
      (d.type = afero_clock2.ATTRIBUTE_TYPE_SINT16 → d.size = 2) ∧
      (d.type = afero_clock2.ATTRIBUTE_TYPE_SINT32 → d.size = 4) ∧
      (d.type = afero_clock2.ATTRIBUTE_TYPE_SINT64 → d.size = 8) ∧
      (d.type = afero_clock2.ATTRIBUTE_TYPE_BOOLEAN → d.size = 1) ∧
      (d.type = afero_clock2.ATTRIBUTE_TYPE_Q_15_16 → d.size = 4)) := by
  refine ⟨?_, ?_, ?_⟩ <;> decide

/-- C4: lookup of id 65019 (AF_SYSTEM_REBOOT_REASON) succeeds in each of the
three profiles and returns size 100 and type UTF8S, whose tag is 20. -/
theorem lookup_reboot_reason :
    lookup MCUUpdateAll1B.profile 65019 =
      .ok ⟨MCUUpdateAll1B.AF_SYSTEM_REBOOT_REASON, 100, MCUUpdateAll1B.ATTRIBUTE_TYPE_UTF8S⟩ ∧
    lookup MCUUpdateAll2.profile 65019 =
      .ok ⟨MCUUpdateAll2.AF_SYSTEM_REBOOT_REASON, 100, MCUUpdateAll2.ATTRIBUTE_TYPE_UTF8S⟩ ∧
    lookup afero_clock2.profile 65019 =
      .ok ⟨afero_clock2.AF_SYSTEM_REBOOT_REASON, 100, afero_clock2.ATTRIBUTE_TYPE_UTF8S⟩ ∧
    MCUUpdateAll1B.ATTRIBUTE_TYPE_UTF8S = 20 ∧
    MCUUpdateAll2.ATTRIBUTE_TYPE_UTF8S = 20 ∧
    afero_clock2.ATTRIBUTE_TYPE_UTF8S = 20 ∧
    ∀ p ∈ profiles, lookup p 65019 = .ok ⟨65019, 100, 20⟩ := by
  refine ⟨rfl, rfl, rfl, rfl, rfl, rfl, ?_⟩
  intro p hp
  simp only [profiles, List.mem_cons, List.mem_singleton, List.not_mem_nil, or_false] at hp
  rcases hp with rfl | rfl | rfl <;> rfl

/-- C5: id 1202 exists only in the afero_clock2 profile: no entry of the
MCUUpdateAll1B table or of the MCUUpdateAll2 table has id 1202 and lookup
there signals UnknownAttribute, while in afero_clock2 lookup returns the
descriptor of AF_DEVICE_ID, of size 8 and type BYTES. -/
theorem lookup_device_id_only_in_afero_clock2 :
    (∀ d ∈ MCUUpdateAll1B.attributes, d.id ≠ 1202) ∧
    lookup MCUUpdateAll1B.profile 1202 = .error .UnknownAttribute ∧
    (∀ d ∈ MCUUpdateAll2.attributes, d.id ≠ 1202) ∧
    lookup MCUUpdateAll2.profile 1202 = .error .UnknownAttribute ∧
    lookup afero_clock2.profile 1202 =
      .ok ⟨afero_clock2.AF_DEVICE_ID, 8, afero_clock2.ATTRIBUTE_TYPE_BYTES⟩ ∧
    afero_clock2.AF_DEVICE_ID = 1202 ∧
    afero_clock2.AF_DEVICE_ID_SZ = 8 ∧
    afero_clock2.AF_DEVICE_ID_TYPE = afero_clock2.ATTRIBUTE_TYPE_BYTES := by
  refine ⟨by decide, rfl, by decide, rfl, rfl, rfl, rfl, rfl⟩

/-- C6: lookup of id 1 in the MCUUpdateAll1B profile succeeds and returns the
descriptor of AF_CURRENT_TEMP, of size 2 and type SINT16, whose tag is 3. -/
theorem lookup_current_temp :
    lookup MCUUpdateAll1B.profile 1 =
      .ok ⟨MCUUpdateAll1B.AF_CURRENT_TEMP, MCUUpdateAll1B.AF_CURRENT_TEMP_SZ,
        MCUUpdateAll1B.AF_CURRENT_TEMP_TYPE⟩ ∧
    MCUUpdateAll1B.AF_CURRENT_TEMP = 1 ∧
    MCUUpdateAll1B.AF_CURRENT_TEMP_SZ = 2 ∧
    MCUUpdateAll1B.AF_CURRENT_TEMP_TYPE = MCUUpdateAll1B.ATTRIBUTE_TYPE_SINT16 ∧
    MCUUpdateAll1B.ATTRIBUTE_TYPE_SINT16 = 3 := by
  refine ⟨rfl, rfl, rfl, rfl, rfl⟩

/-- C3, as stated: for every id above 65000 and every two of the three
profiles that both define it, lookup returns the same size and type. This
fails at id 65012 (AF_SYSTEM_COMMAND) between MCUUpdateAll1B and
MCUUpdateAll2. -/
theorem system_attributes_disagree_at_command :
    ¬ (∀ id, 65000 < id → ∀ p ∈ profiles, ∀ q ∈ profiles, ∀ d e,
        lookup p id = .ok d → lookup q id = .ok e →
        d.size = e.size ∧ d.type = e.type) := by
  intro h
  have h2 := h 65012 (by decide) MCUUpdateAll1B.profile (by decide)
    MCUUpdateAll2.profile (by decide) _ _ rfl rfl
  exact absurd h2.1 (by decide)

/-- C3, amended: for every id above 65000 and every two of the three profiles
that both define it, lookup returns the same size and the same type in both
profiles, unless the id is 65012 (AF_SYSTEM_COMMAND) and exactly one of the
two profiles is MCUUpdateAll2. -/
theorem system_attributes_agree_except_command (id : Nat) (hid : 65000 < id)
    (p q : DeviceProfile) (hp : p ∈ profiles) (hq : q ∈ profiles)
    (hex : id ≠ 65012 ∨ (p = MCUUpdateAll2.profile ↔ q = MCUUpdateAll2.profile))
    (d e : AttributeDescriptor) (hd : lookup p id = .ok d) (he : lookup q id = .ok e) :
    d.size = e.size ∧ d.type = e.type := by
  obtain ⟨hdm, hdi⟩ := lookup_ok_mem hd
  obtain ⟨hem, hei⟩ := lookup_ok_mem he
  exact system_entries_agree p hp q hq d hdm e hem (hdi.trans hei.symm)
    (by rw [hdi]; exact hid) (by rw [hdi]; exact hex)

theorem system_attributes_agree_except_command_witness :
    65000 < 65012 ∧
    MCUUpdateAll1B.profile ∈ profiles ∧ afero_clock2.profile ∈ profiles ∧
    (65012 ≠ 65012 ∨
      (MCUUpdateAll1B.profile = MCUUpdateAll2.profile ↔
        afero_clock2.profile = MCUUpdateAll2.profile)) ∧
    lookup MCUUpdateAll1B.profile 65012 = .ok ⟨65012, 64, 21⟩ ∧
    lookup afero_clock2.profile 65012 = .ok ⟨65012, 64, 21⟩ ∧
    (AttributeDescriptor.mk 65012 64 21).size = (AttributeDescriptor.mk 65012 64 21).size ∧
    (AttributeDescriptor.mk 65012 64 21).type = (AttributeDescriptor.mk 65012 64 21).type :=
  ⟨by decide, by decide, by decide, by decide, rfl, rfl,
    system_attributes_agree_except_command 65012 (by decide)
      MCUUpdateAll1B.profile afero_clock2.profile (by decide) (by decide) (by decide)
      ⟨65012, 64, 21⟩ ⟨65012, 64, 21⟩ rfl rfl⟩

/-- C7: AF_SYSTEM_COMMAND (id 65012) has size 64 and type BYTES in exactly
two of the three profiles, MCUUpdateAll1B and afero_clock2, and size 4 and
type SINT32 in the remaining one, MCUUpdateAll2. -/
theorem system_command_per_profile :
    (MCUUpdateAll1B.AF_SYSTEM_COMMAND = 65012 ∧
      MCUUpdateAll1B.AF_SYSTEM_COMMAND_SZ = 64 ∧
      MCUUpdateAll1B.AF_SYSTEM_COMMAND_TYPE = MCUUpdateAll1B.ATTRIBUTE_TYPE_BYTES) ∧
    (afero_clock2.AF_SYSTEM_COMMAND = 65012 ∧
      afero_clock2.AF_SYSTEM_COMMAND_SZ = 64 ∧
      afero_clock2.AF_SYSTEM_COMMAND_TYPE = afero_clock2.ATTRIBUTE_TYPE_BYTES) ∧
    (MCUUpdateAll2.AF_SYSTEM_COMMAND = 65012 ∧
      MCUUpdateAll2.AF_SYSTEM_COMMAND_SZ = 4 ∧
      MCUUpdateAll2.AF_SYSTEM_COMMAND_TYPE = MCUUpdateAll2.ATTRIBUTE_TYPE_SINT32) ∧
    (MCUUpdateAll1B.ATTRIBUTE_TYPE_BYTES = 21 ∧ afero_clock2.ATTRIBUTE_TYPE_BYTES = 21 ∧
      MCUUpdateAll2.ATTRIBUTE_TYPE_SINT32 = 4) ∧
    profiles.filter (fun p => decide (AttributeDescriptor.mk 65012 64 21 ∈ p.attributes)) =
      [MCUUpdateAll1B.profile, afero_clock2.profile] ∧
    profiles.filter (fun p => decide (AttributeDescriptor.mk 65012 4 4 ∈ p.attributes)) =
      [MCUUpdateAll2.profile] := by
  refine ⟨⟨rfl, rfl, rfl⟩, ⟨rfl, rfl, rfl⟩, ⟨rfl, rfl, rfl⟩, ⟨rfl, rfl, rfl⟩, ?_, ?_⟩ <;> decide

/-- C8: in each of the three profiles the active board variant AF_BOARD is
one of the board variants enumerated in the same header (MODULO_1B, of value
6, for MCUUpdateAll1B; MODULO_2, of value 1, for MCUUpdateAll2 and
afero_clock2), and the enumerated values of a header are pairwise distinct. -/
theorem active_board_enumerated :
    (MCUUpdateAll1B.AF_BOARD = MCUUpdateAll1B.AF_BOARD_MODULO_1B ∧
      MCUUpdateAll1B.AF_BOARD_MODULO_1B = 6 ∧
      MCUUpdateAll1B.AF_BOARD_MODULO_1B ∈ MCUUpdateAll1B.boards) ∧
    (MCUUpdateAll2.AF_BOARD = MCUUpdateAll2.AF_BOARD_MODULO_2 ∧
      MCUUpdateAll2.AF_BOARD_MODULO_2 = 1 ∧
      MCUUpdateAll2.AF_BOARD_MODULO_2 ∈ MCUUpdateAll2.boards) ∧
    (afero_clock2.AF_BOARD = afero_clock2.AF_BOARD_MODULO_2 ∧
      afero_clock2.AF_BOARD_MODULO_2 = 1 ∧
      afero_clock2.AF_BOARD_MODULO_2 ∈ afero_clock2.boards) ∧
    ∀ p ∈ profiles, p.board ∈ p.boards ∧ p.boards.Nodup := by
  refine ⟨⟨rfl, rfl, ?_⟩, ⟨rfl, rfl, ?_⟩, ⟨rfl, rfl, ?_⟩, ?_⟩ <;> decide

/-- C9: every attribute descriptor of each of the three profiles has an id
that fits in 16 bits, a size between 1 and 100, and a type that is one of
the eight wire-type tags its header defines. -/
theorem descriptors_in_domain (p : DeviceProfile) (hp : p ∈ profiles)
    (d : AttributeDescriptor) (hd : d ∈ p.attributes) :
    d.id ≤ 65535 ∧ 1 ≤ d.size ∧ d.size ≤ 100 ∧
    d.type ∈ p.attributeTypes ∧ p.attributeTypes.length = 8 := by
  have h : ∀ p ∈ profiles, ∀ d ∈ p.attributes,
      d.id ≤ 65535 ∧ 1 ≤ d.size ∧ d.size ≤ 100 ∧
      d.type ∈ p.attributeTypes ∧ p.attributeTypes.length = 8 := by decide
  exact h p hp d hd

theorem descriptors_in_domain_witness :
    afero_clock2.profile ∈ profiles ∧
    AttributeDescriptor.mk 65019 100 20 ∈ afero_clock2.profile.attributes ∧
    (AttributeDescriptor.mk 65019 100 20).id ≤ 65535 ∧
    1 ≤ (AttributeDescriptor.mk 65019 100 20).size ∧
    (AttributeDescriptor.mk 65019 100 20).size ≤ 100 ∧
    (AttributeDescriptor.mk 65019 100 20).type ∈ afero_clock2.profile.attributeTypes ∧
    afero_clock2.profile.attributeTypes.length = 8 :=
  ⟨by decide, by decide,
    descriptors_in_domain afero_clock2.profile (by decide) ⟨65019, 100, 20⟩ (by decide)⟩

/-- C10: the eight wire-type tags of a header are pairwise distinct, and each
tag name has the same value in all three headers: BOOLEAN 1, SINT8 2,
SINT16 3, SINT32 4, SINT64 5, Q_15_16 6, UTF8S 20, BYTES 21. -/
theorem type_tags_distinct_and_shared :
    (MCUUpdateAll1B.attributeTypes.Nodup ∧ MCUUpdateAll2.attributeTypes.Nodup ∧
      afero_clock2.attributeTypes.Nodup) ∧
    (MCUUpdateAll1B.attributeTypes.length = 8 ∧ MCUUpdateAll2.attributeTypes.length = 8 ∧
      afero_clock2.attributeTypes.length = 8) ∧
    (MCUUpdateAll1B.ATTRIBUTE_TYPE_BOOLEAN = 1 ∧ MCUUpdateAll2.ATTRIBUTE_TYPE_BOOLEAN = 1 ∧
      afero_clock2.ATTRIBUTE_TYPE_BOOLEAN = 1) ∧
    (MCUUpdateAll1B.ATTRIBUTE_TYPE_SINT8 = 2 ∧ MCUUpdateAll2.ATTRIBUTE_TYPE_SINT8 = 2 ∧
      afero_clock2.ATTRIBUTE_TYPE_SINT8 = 2) ∧
    (MCUUpdateAll1B.ATTRIBUTE_TYPE_SINT16 = 3 ∧ MCUUpdateAll2.ATTRIBUTE_TYPE_SINT16 = 3 ∧
      afero_clock2.ATTRIBUTE_TYPE_SINT16 = 3) ∧
    (MCUUpdateAll1B.ATTRIBUTE_TYPE_SINT32 = 4 ∧ MCUUpdateAll2.ATTRIBUTE_TYPE_SINT32 = 4 ∧
      afero_clock2.ATTRIBUTE_TYPE_SINT32 = 4) ∧
    (MCUUpdateAll1B.ATTRIBUTE_TYPE_SINT64 = 5 ∧ MCUUpdateAll2.ATTRIBUTE_TYPE_SINT64 = 5 ∧
      afero_clock2.ATTRIBUTE_TYPE_SINT64 = 5) ∧
    (MCUUpdateAll1B.ATTRIBUTE_TYPE_Q_15_16 = 6 ∧ MCUUpdateAll2.ATTRIBUTE_TYPE_Q_15_16 = 6 ∧
      afero_clock2.ATTRIBUTE_TYPE_Q_15_16 = 6) ∧
    (MCUUpdateAll1B.ATTRIBUTE_TYPE_UTF8S = 20 ∧ MCUUpdateAll2.ATTRIBUTE_TYPE_UTF8S = 20 ∧
      afero_clock2.ATTRIBUTE_TYPE_UTF8S = 20) ∧
    (MCUUpdateAll1B.ATTRIBUTE_TYPE_BYTES = 21 ∧ MCUUpdateAll2.ATTRIBUTE_TYPE_BYTES = 21 ∧
      afero_clock2.ATTRIBUTE_TYPE_BYTES = 21) := by
  refine ⟨⟨?_, ?_, ?_⟩, ?_⟩ <;> decide

end AfLib
